import Mathlib

/-!
# gobeansproxy: the route-reload handler of the admin web surface

A shallow embedding of `handleRouteReload` and `handleWebPanic`
(`gobeansproxy/web.go`) together with the package-level variables they read and
write, followed by the properties of the hot-reload coordinator that are
settled on that embedding.

Conventions of the embedding:

* package-level variables (`dbcfg.AllowReload`, `dbcfg.ZKClient.Stat`,
  `config.Route`, `proxyConf`, the scheduler held by package `dstore`) are the
  fields of `State`;
* the `http.ResponseWriter` is the list of the payloads handed to `Write`, in
  order;
* calls that leave the repository (`ZKClient.GetRouteRaw`,
  `RouteTable.LoadFromYaml`, `utils.GetStack`, the `%#v` rendering of a panic
  value) are the fields of `Env`: one value per invocation of the handler;
* `defer`, `panic` and `recover` are made explicit: the body of the function
  produces a `Frame` (response, globals, the variable `err`, the pending panic)
  and the deferred calls are functions on frames, applied last-registered
  first;
* the `go` statement of line 187 appends a `CloseTask` to the list of spawned
  tasks; running the task is a separate function (`runCloseTask`);
* machine integers are `Int` with explicit wrap-around (`wrapInt64`).
-/

namespace Gobeansproxy

/-! ## `fmt.Sprintf` with a format string and no operands -/

/-- `tooLarge` of package fmt: the bound on widths, precisions and argument
indexes read from a format string. -/
def tooLarge (x : Nat) : Bool := decide (1000000 < x)

/-- Loop of `parsenum` (package fmt) over the segment `s[start:end]`: returns the
number read, whether a digit was seen, and the unread rest of the segment. On a
number that is too large the whole segment is consumed (`newi = end`). -/
def parsenumLoop : Nat → Bool → List Char → Nat × Bool × List Char
  | num, isnum, [] => (num, isnum, [])
  | num, isnum, c :: cs =>
    if '0' ≤ c ∧ c ≤ '9' then
      if tooLarge num then (0, false, [])
      else parsenumLoop (num * 10 + (c.toNat - '0'.toNat)) true cs
    else (num, isnum, c :: cs)

/-- `parsenum(s, start, end)` of package fmt on the segment `s[start:end]`. -/
def parsenum (seg : List Char) : Nat × Bool × List Char :=
  parsenumLoop 0 false seg

/-- `parseArgNumber(format)` of package fmt, called on a format that starts with
`[`: returns how many characters the bracketed index takes (`wid`) and whether it
is well formed (`ok`). The index itself is not returned: with no operands no
index is in range. -/
def parseArgNumber (format : List Char) : Nat × Bool :=
  if format.length < 3 then (1, false)
  else
    match (format.drop 1).indexOf? ']' with
    | none => (1, false)
    | some k =>
      -- the closing bracket is at position `k + 1` of `format`
      let r := parsenum ((format.drop 1).take k)
      if !r.2.1 || !r.2.2.isEmpty then (k + 2, false) else (k + 2, true)

/-- State of `doPrintf` while one verb is read: the unread format, the output
buffer, and the flags `goodArgNum` and `afterIndex`. -/
structure VerbScan where
  rest : List Char
  buf : List Char
  goodArgNum : Bool
  afterIndex : Bool

/-- `(*pp).argNumber` of package fmt with `numArgs = 0`: an argument index, if one
is written here, is skipped and is never usable. -/
def argNumber (v : VerbScan) : VerbScan :=
  match v.rest with
  | '[' :: _ =>
    let r := parseArgNumber v.rest
    { v with rest := v.rest.drop r.1, goodArgNum := false, afterIndex := r.2 }
  | _ => { v with afterIndex := false }

/-- The flag characters skipped after `%` (`#`, `0`, `+`, `-` and space). -/
def skipFlags : List Char → List Char
  | c :: cs =>
    if c = '#' ∨ c = '0' ∨ c = '+' ∨ c = '-' ∨ c = ' ' then skipFlags cs else c :: cs
  | [] => []

/-- Width part of a verb in `doPrintf`, no operands: `*` has no operand to read
the width from and prints `%!(BADWIDTH)`; otherwise a number is read. -/
def scanWidth (v : VerbScan) : VerbScan :=
  match v.rest with
  | '*' :: cs => { v with rest := cs, buf := v.buf ++ "%!(BADWIDTH)".toList, afterIndex := false }
  | _ =>
    let r := parsenum v.rest
    { v with rest := r.2.2, goodArgNum := v.goodArgNum && !(v.afterIndex && r.2.1) }

/-- Precision part of a verb in `doPrintf`, no operands. A precision is read
only when a character follows the dot (`i+1 < end`); a dot that ends the format
is left to be read as the verb. -/
def scanPrecision (v : VerbScan) : VerbScan :=
  match v.rest with
  | '.' :: c :: cs0 =>
    let cs := c :: cs0
    let v1 := argNumber { v with rest := cs, goodArgNum := v.goodArgNum && !v.afterIndex }
    match v1.rest with
    | '*' :: cs1 =>
      { v1 with rest := cs1, buf := v1.buf ++ "%!(BADPREC)".toList, afterIndex := false }
    | _ => { v1 with rest := (parsenum v1.rest).2.2 }
  | _ => v

/-- One verb of `doPrintf`, entered right after its `%`, no operands. Returns the
scan after the verb; `none` for the rest means that formatting stops
(`%!(NOVERB)` at the end of the format). -/
def scanVerb (afterPercent : List Char) (buf : List Char) : List Char × Option (List Char) :=
  let v0 : VerbScan :=
    { rest := skipFlags afterPercent, buf := buf, goodArgNum := true, afterIndex := false }
  let v1 := scanPrecision (scanWidth (argNumber v0))
  let v2 := if v1.afterIndex then v1 else argNumber v1
  match v2.rest with
  | [] => (v2.buf ++ "%!(NOVERB)".toList, none)
  | verb :: cs =>
    if verb = '%' then (v2.buf ++ ['%'], some cs)
    else if !v2.goodArgNum then (v2.buf ++ "%!".toList ++ [verb] ++ "(BADINDEX)".toList, some cs)
    else (v2.buf ++ "%!".toList ++ [verb] ++ "(MISSING)".toList, some cs)

/-- The format loop of `doPrintf` (package fmt) for an empty operand list. Every
turn copies the text up to the next `%` and reads one verb; `fuel` bounds the
number of turns (each turn consumes at least the `%`). -/
def doPrintf : Nat → List Char → List Char → List Char
  | 0, _, buf => buf
  | fuel + 1, format, buf =>
    let text := format.takeWhile (fun c => c != '%')
    match format.dropWhile (fun c => c != '%') with
    | [] => buf ++ text
    | _ :: afterPercent =>
      match scanVerb afterPercent (buf ++ text) with
      | (out, none) => out
      | (out, some rest) => doPrintf fuel rest out

/-- `fmt.Sprintf(format)`, no operands: the directives of `format` are
interpreted although there is nothing to print for them. The fuel is never used
up (`Sprintf_fuel_suffices`). -/
def Sprintf (format : String) : String :=
  String.mk (doPrintf (format.length + 1) format.toList [])

/-! ## Data: the package-level variables and the calls that leave the repository -/

/-- Go `error` values, represented by the text returned by `Error()`. -/
abbrev GoError := String

/-- The `http.ResponseWriter` of one request: the payloads passed to `Write`,
oldest first. -/
abbrev ResponseWriter := List String

/-- `zk.Stat` (go-zookeeper): the node metadata returned with the route. The
handler reads `Version` only. -/
structure Stat where
  Czxid : Int := 0
  Mzxid : Int := 0
  Ctime : Int := 0
  Mtime : Int := 0
  Version : Int := 0
  Cversion : Int := 0
  Aversion : Int := 0
  EphemeralOwner : Int := 0
  DataLength : Int := 0
  NumChildren : Int := 0
  Pzxid : Int := 0
deriving DecidableEq, Repr

/-- The fields of `config.ProxyConfig` read by the handler (through the global
`proxyConf`). -/
structure ProxyConfig where
  ZKServers : List String
  N : Int
  ReadTimeoutMs : Int
deriving DecidableEq, Repr

/-- Modelled from the spec: the Scheduler of package `dstore`, whose source is
not at hand. The spec has it created "bound to one RouteTable" by the reload
coordinator, one fresh instance per reload; `id` is the identity of the instance
(the order of construction), `route` and `n` are the arguments it was built
from. -/
structure Scheduler (ρ : Type) where
  id : Nat
  route : ρ
  n : Int
deriving DecidableEq, Repr

/-- The goroutine started at the end of a reload: `time.Sleep(delay)` followed by
`target.Close()`. `delay` is a `time.Duration` (nanoseconds, 64-bit), `target`
the value of the local `oldScheduler` (nil when no scheduler was installed). -/
structure CloseTask (ρ : Type) where
  delay : Int
  target : Option (Scheduler ρ)
deriving DecidableEq, Repr

/-- A call of the logger: level, format string and operands. The handler's
calls are recorded, not rendered. -/
structure LogEntry where
  level : String
  format : String
  args : List String
deriving DecidableEq, Repr

/-- The package-level variables the handler works on, and the effects it leaves
behind. `ρ` is `dbcfg.RouteTable` (package gobeansdb/config), whose content the
handler never inspects. -/
structure State (ρ : Type) where
  /-- Variable `dbcfg.AllowReload`. -/
  AllowReload : Bool
  /-- Variable `proxyConf`. -/
  proxyConf : ProxyConfig
  /-- Field `dbcfg.ZKClient.Stat`: the stat of the applied route, nil before the
  first one. -/
  ZKStat : Option Stat
  /-- Variable `config.Route`. -/
  Route : Option ρ
  /-- The scheduler held by package `dstore`, as returned by `dstore.GetScheduler()`. -/
  globalScheduler : Option (Scheduler ρ)
  /-- Number of schedulers constructed so far; the next one gets this `id`. -/
  schedulersBuilt : Nat
  /-- Identities of the schedulers whose `Close()` has run. -/
  closed : List Nat
  /-- Goroutines started and not yet run, oldest first. -/
  spawned : List (CloseTask ρ)
  /-- Number of calls of `ZKClient.GetRouteRaw` so far. -/
  fetches : Nat
  /-- Calls of the logger so far, oldest first. -/
  logged : List LogEntry
deriving DecidableEq, Repr

/-- The value carried by a panic. -/
inductive PanicValue where
  /-- The runtime error of dereferencing a nil pointer. -/
  | nilDereference
  /-- A value raised inside a callee outside the repository. -/
  | raised (v : String)
deriving DecidableEq, Repr

/-- What `dbcfg.ZKClient.GetRouteRaw()` did in this invocation: it returned its
three results, or it panicked (as it does on a nil `dbcfg.ZKClient`). The call
reads ZooKeeper and leaves the package-level variables alone. -/
inductive FetchOutcome where
  | returned (newRouteContent : String) (stat : Option Stat) (err : Option GoError)
  | panicked (v : PanicValue)
deriving DecidableEq, Repr

/-- What `newRoute.LoadFromYaml(content)` did: the route table it filled in, the
error it returned, or the panic it raised. -/
inductive ParseOutcome (ρ : Type) where
  | loaded (newRoute : ρ)
  | failed (err : GoError)
  | panicked (v : PanicValue)
deriving DecidableEq, Repr

/-- The calls that leave the repository, for one invocation of the handler. -/
structure Env (ρ : Type) where
  /-- Method `dbcfg.ZKClient.GetRouteRaw()`. -/
  GetRouteRaw : FetchOutcome
  /-- Method `(*dbcfg.RouteTable).LoadFromYaml` on a fresh route table. -/
  LoadFromYaml : String → ParseOutcome ρ
  /-- Result of `utils.GetStack(2000)`. -/
  GetStack : String
  /-- The `%#v` rendering of a panic value. -/
  showPanic : PanicValue → String

/-- The state of one activation of `handleRouteReload`: the response written so
far, the globals, the local `err` (captured by the deferred closure) and the
panic that is unwinding the function, if any. -/
structure Frame (ρ : Type) where
  w : ResponseWriter
  s : State ρ
  err : Option GoError
  panicking : Option PanicValue

/-! ## Integer arithmetic of `time.Duration` -/

/-- Wrap-around of a 64-bit signed integer. -/
def wrapInt64 (x : Int) : Int :=
  (x + 9223372036854775808) % 18446744073709551616 - 9223372036854775808

/-- Constant `time.Millisecond`, in nanoseconds. -/
def Millisecond : Int := 1000000

/-- The argument of `time.Sleep` in the goroutine, line 189:
`time.Duration(proxyConf.ReadTimeoutMs) * time.Millisecond * 5`, evaluated left
to right on 64-bit integers. -/
def closeDelay (readTimeoutMs : Int) : Int :=
  wrapInt64 (wrapInt64 (wrapInt64 readTimeoutMs * Millisecond) * 5)

/-! ## Package dstore -/

/-- Modelled from the spec: `dstore.GetScheduler()`, whose source is not at hand:
the "single process-wide reference to the current active Scheduler". -/
def GetScheduler {ρ : Type} (s : State ρ) : Option (Scheduler ρ) :=
  s.globalScheduler

/-- Modelled from the spec: `dstore.InitGlobalManualScheduler(route, n)`, whose
source is not at hand: "construct a new Scheduler bound to the candidate
RouteTable" and "replace the process-wide active-Scheduler reference with the new
Scheduler". The new instance is distinct from every scheduler built before. -/
def InitGlobalManualScheduler {ρ : Type} (route : ρ) (n : Int) (s : State ρ) : State ρ :=
  { s with
    globalScheduler := some { id := s.schedulersBuilt, route := route, n := n }
    schedulersBuilt := s.schedulersBuilt + 1 }

/-- Modelled from the spec: `Close()` of a scheduler, whose source is not at
hand: it releases the scheduler, and "calling Close() more than once is a
no-op". -/
def Scheduler.Close {ρ : Type} (sch : Scheduler ρ) (s : State ρ) : State ρ :=
  if sch.id ∈ s.closed then s else { s with closed := sch.id :: s.closed }

/-- The body of the goroutine of lines 187–191, run once its sleep is over:
`oldScheduler.Close()`. It is `none` when `oldScheduler` is nil: the method call
on a nil interface panics outside any handler. -/
def runCloseTask {ρ : Type} (t : CloseTask ρ) (s : State ρ) : Option (State ρ) :=
  match t.target with
  | none => none
  | some sch => some (sch.Close s)

/-! ## `web.go` -/

/-- Rendering of a `%d` operand. -/
def showInt (v : Int) : String := toString v

/-- `handleWebPanic(w)`, run as a deferred call: `recover()` stops a panic that
is unwinding the handler; the panic is logged and reported on the response. With
no panic it does nothing. -/
def handleWebPanic {ρ : Type} (env : Env ρ) (f : Frame ρ) : Frame ρ :=
  match f.panicking with
  | none => f
  | some r =>
    let stack := env.GetStack
    { w := f.w ++ ["\npanic:" ++ env.showPanic r ++ ", stack:" ++ stack]
      s := { f.s with
        logged := f.s.logged ++
          [{ level := "error", format := "web req panic:%#v, stack:%s",
             args := [env.showPanic r, stack] }] }
      err := f.err
      panicking := none }

/-- The closure deferred at lines 150–157: it gives the reload flag back and,
when `err` is set, logs the error and writes it to the response through
`fmt.Sprintf`, the error text being the format string. -/
def deferredReset {ρ : Type} (f : Frame ρ) : Frame ρ :=
  let s := { f.s with AllowReload := true }
  match f.err with
  | some e =>
    { f with
      w := f.w ++ [Sprintf e]
      s := { s with
        logged := s.logged ++ [{ level := "error", format := "handleRoute err", args := [e] }] } }
  | none => { f with s := s }

/-- The condition of line 169,
`dbcfg.ZKClient.Stat != nil && stat.Version == dbcfg.ZKClient.Stat.Version`:
the right operand is evaluated, and dereferences `stat`, only when a route has
been applied before. -/
def sameVersion (applied stat : Option Stat) : Except PanicValue Bool :=
  match applied with
  | none => .ok false
  | some a =>
    match stat with
    | none => .error .nilDereference
    | some st => .ok (st.Version == a.Version)

/-- Lines 165–191 of `handleRouteReload`: fetch, version check, parse, swap,
response, and the goroutine that closes the old scheduler. The result is the
frame at the point where the deferred calls start to run. -/
def reloadBody {ρ : Type} (env : Env ρ) (w : ResponseWriter) (s : State ρ) : Frame ρ :=
  let s := { s with fetches := s.fetches + 1 }
  match env.GetRouteRaw with
  | .panicked v => { w := w, s := s, err := none, panicking := some v }
  | .returned _ _ (some e) => { w := w, s := s, err := some e, panicking := none }
  | .returned newRouteContent stat none =>
    match sameVersion s.ZKStat stat, stat with
    | .error v, _ => { w := w, s := s, err := none, panicking := some v }
    -- `stat.Version` at line 170, or else at line 173
    | .ok _, none => { w := w, s := s, err := none, panicking := some .nilDereference }
    | .ok true, some st =>
      { w := w ++ ["same version " ++ showInt st.Version], s := s, err := none, panicking := none }
    | .ok false, some st =>
      let info := "update with route version " ++ showInt st.Version ++ "\n"
      let s := { s with logged := s.logged ++ [{ level := "info", format := info, args := [] }] }
      match env.LoadFromYaml newRouteContent with
      | .panicked v => { w := w, s := s, err := none, panicking := some v }
      | .failed e => { w := w, s := s, err := some e, panicking := none }
      | .loaded newRoute =>
        let oldScheduler := GetScheduler s
        let s := InitGlobalManualScheduler newRoute s.proxyConf.N s
        let s := { s with Route := some newRoute }
        let s := { s with ZKStat := some st }
        let w := w ++ ["success"]
        let s := { s with
          spawned := s.spawned ++
            [{ delay := closeDelay s.proxyConf.ReadTimeoutMs, target := oldScheduler }] }
        { w := w, s := s, err := none, panicking := none }

/-- Lines 150–191 of `handleRouteReload`, entered with `dbcfg.AllowReload`
already set to false, the deferred calls run at the end: the reloading section
of the handler. -/
def reloadSection {ρ : Type} (env : Env ρ) (w : ResponseWriter) (s : State ρ) : Frame ρ :=
  if s.proxyConf.ZKServers.length == 0 then
    deferredReset { w := w ++ ["not using zookeeper"], s := s, err := none, panicking := none }
  else
    deferredReset (handleWebPanic env (reloadBody env w s))

/-- `handleRouteReload(w, r)`: the frame in which the handler returns. The
request `r` is not read. -/
def handleRouteReload {ρ : Type} (env : Env ρ) (w : ResponseWriter) (s : State ρ) : Frame ρ :=
  if !s.AllowReload then
    { w := w ++ ["reloading"], s := s, err := none, panicking := none }
  else
    reloadSection env w { s with AllowReload := false }

/-! ## Two handlers served at the same time

`net/http` serves every request on a goroutine of its own, and the handler takes
no lock: the statements of two invocations interleave. The interleaving below
is coarse (the whole of lines 150–191 is one step); every run of it is a run of
the program. -/

/-- Where a handler stands. -/
inductive Pc where
  /-- Before the read of `dbcfg.AllowReload` at line 144. -/
  | atCheck
  /-- The check has passed; `dbcfg.AllowReload = false` (line 149) is next. -/
  | atSet
  /-- Inside lines 150–191, the deferred reset of the flag not yet run. -/
  | reloading
  /-- Returned. -/
  | done
deriving DecidableEq, Repr

/-- One invocation of the handler in flight: its position and its response. -/
structure Handler where
  pc : Pc
  w : ResponseWriter
deriving DecidableEq, Repr

/-- One step of one handler on the shared variables. -/
def Handler.step {ρ : Type} (env : Env ρ) (h : Handler) (s : State ρ) : Handler × State ρ :=
  match h.pc with
  | .atCheck =>
    if !s.AllowReload then ({ pc := .done, w := h.w ++ ["reloading"] }, s)
    else ({ h with pc := .atSet }, s)
  | .atSet => ({ h with pc := .reloading }, { s with AllowReload := false })
  | .reloading => ({ pc := .done, w := (reloadSection env h.w s).w }, (reloadSection env h.w s).s)
  | .done => (h, s)

/-- The handler is in the reloading section: past the check of
`dbcfg.AllowReload` and before the reset of the flag. -/
def Handler.inSection (h : Handler) : Bool :=
  h.pc == .atSet || h.pc == .reloading

/-- Two invocations and the variables they share. -/
structure Pair (ρ : Type) where
  s : State ρ
  first : Handler
  second : Handler

/-- The names of the two invocations. -/
inductive Tid where
  | first
  | second
deriving DecidableEq, Repr

/-- The invocation named by `t` takes one step. -/
def Pair.step {ρ : Type} (envFirst envSecond : Env ρ) (c : Pair ρ) (t : Tid) : Pair ρ :=
  match t with
  | .first =>
    { c with first := (c.first.step envFirst c.s).1, s := (c.first.step envFirst c.s).2 }
  | .second =>
    { c with second := (c.second.step envSecond c.s).1, s := (c.second.step envSecond c.s).2 }

/-- The run of two invocations under a schedule, both starting at line 144 with
an empty response. -/
def Pair.run {ρ : Type} (envFirst envSecond : Env ρ) (s : State ρ) (schedule : List Tid) :
    Pair ρ :=
  schedule.foldl (Pair.step envFirst envSecond)
    { s := s, first := { pc := .atCheck, w := [] }, second := { pc := .atCheck, w := [] } }

/-! ## Vocabulary of the statements -/

/-- A successful call: the handler returns with no error and its response to
this request is `success`. -/
def Successful {ρ : Type} (env : Env ρ) (w : ResponseWriter) (s : State ρ) : Prop :=
  (handleRouteReload env w s).err = none ∧ (handleRouteReload env w s).w = w ++ ["success"]

instance {ρ : Type} (env : Env ρ) (w : ResponseWriter) (s : State ρ) :
    Decidable (Successful env w s) :=
  inferInstanceAs (Decidable (_ ∧ _))

/-- The conditions under which control reaches the swap at lines 181–185: reload
allowed, ZooKeeper configured, the fetch returns a stat and no error, the fetched
version is not the applied one, and the parse succeeds. -/
def reachesPublish {ρ : Type} (env : Env ρ) (s : State ρ) : Bool :=
  s.AllowReload && s.proxyConf.ZKServers.length != 0 &&
    match env.GetRouteRaw with
    | .returned newRouteContent (some st) none =>
      (match s.ZKStat with
        | some applied => st.Version != applied.Version
        | none => true) &&
      (match env.LoadFromYaml newRouteContent with
        | .loaded _ => true
        | _ => false)
    | _ => false

/-- The active scheduler is one of the schedulers constructed so far. -/
def SchedulerAllocated {ρ : Type} (s : State ρ) : Prop :=
  ∀ sch, s.globalScheduler = some sch → sch.id < s.schedulersBuilt

/-- The applied route version, when a route has been applied. -/
def appliedVersion {ρ : Type} (s : State ρ) : Option Int :=
  s.ZKStat.map (fun st => st.Version)

/-! ## Sample inputs -/

/-- A proxy configured with two ZooKeeper servers. -/
def sampleConf : ProxyConfig :=
  { ZKServers := ["zk1:2181", "zk2:2181"], N := 3, ReadTimeoutMs := 2000 }

/-- A running proxy: route version 5 applied, scheduler number 0 active. -/
def sampleState : State String :=
  { AllowReload := true
    proxyConf := sampleConf
    ZKStat := some { Version := 5 }
    Route := some "route-v5"
    globalScheduler := some { id := 0, route := "route-v5", n := 3 }
    schedulersBuilt := 1
    closed := []
    spawned := []
    fetches := 0
    logged := [] }

/-- An environment in which the fetch returns `content` at version `version` and
every content parses to itself, except the content `bad`, which is rejected. -/
def sampleEnv (content : String) (version : Int) : Env String :=
  { GetRouteRaw := .returned content (some { Version := version }) none
    LoadFromYaml := fun c =>
      if c = "bad" then .failed "yaml: line 1: did not find expected key" else .loaded c
    GetStack := "goroutine 7 [running]"
    showPanic := fun v =>
      match v with
      | .nilDereference => "runtime error: invalid memory address or nil pointer dereference"
      | .raised t => t }

/-- An environment in which the fetched route holds the scalar `50%` where a
number is expected, and the parse error (in the wording of the YAML library)
quotes it. -/
def percentEnv : Env String :=
  { GetRouteRaw := .returned "numbucket: 16\nbackup: 50%\n" (some { Version := 6 }) none
    LoadFromYaml := fun _ =>
      .failed "yaml: unmarshal errors:\n  line 2: cannot unmarshal !!str `50%` into int"
    GetStack := ""
    showPanic := fun _ => "" }

/-! ## Auxiliary facts -/

theorem skipFlags_length_le (l : List Char) : (skipFlags l).length ≤ l.length := by
  induction l with
  | nil => simp [skipFlags]
  | cons c cs ih =>
    unfold skipFlags
    split
    · exact Nat.le_succ_of_le ih
    · exact Nat.le_refl _

theorem parsenumLoop_length_le (l : List Char) :
    ∀ (num : Nat) (isnum : Bool), (parsenumLoop num isnum l).2.2.length ≤ l.length := by
  induction l with
  | nil => intro num isnum; simp [parsenumLoop]
  | cons c cs ih =>
    intro num isnum
    unfold parsenumLoop
    split
    · split
      · simp
      · exact Nat.le_succ_of_le (ih _ _)
    · exact Nat.le_refl _

theorem argNumber_rest_le (v : VerbScan) : (argNumber v).rest.length ≤ v.rest.length := by
  unfold argNumber
  split
  · simp only [List.length_drop]
    omega
  · exact Nat.le_refl _

theorem scanWidth_rest_le (v : VerbScan) : (scanWidth v).rest.length ≤ v.rest.length := by
  unfold scanWidth
  split
  · rename_i cs h
    simp [h]
  · exact parsenumLoop_length_le _ _ _

theorem scanPrecision_rest_le (v : VerbScan) : (scanPrecision v).rest.length ≤ v.rest.length := by
  unfold scanPrecision
  split
  · rename_i c cs0 h
    have h1 := argNumber_rest_le
      { v with rest := c :: cs0, goodArgNum := v.goodArgNum && !v.afterIndex }
    simp only at h1
    rw [h]
    simp only
    split
    · rename_i cs1 h2
      rw [h2] at h1
      simp only [List.length_cons] at h1 ⊢
      omega
    · have h3 := parsenumLoop_length_le
        (argNumber
          { v with rest := c :: cs0, goodArgNum := v.goodArgNum && !v.afterIndex }).rest 0 false
      simp only [parsenum, List.length_cons] at h1 h3 ⊢
      omega
  · exact Nat.le_refl _

/-- A verb consumes at least its verb character. -/
theorem scanVerb_rest_lt (afterPercent buf out rest : List Char)
    (h : scanVerb afterPercent buf = (out, some rest)) :
    rest.length < afterPercent.length := by
  unfold scanVerb at h
  simp only at h
  have h0 := skipFlags_length_le afterPercent
  have h1 := argNumber_rest_le
    { rest := skipFlags afterPercent, buf := buf, goodArgNum := true, afterIndex := false }
  have h2 := scanWidth_rest_le (argNumber
    { rest := skipFlags afterPercent, buf := buf, goodArgNum := true, afterIndex := false })
  have h3 := scanPrecision_rest_le (scanWidth (argNumber
    { rest := skipFlags afterPercent, buf := buf, goodArgNum := true, afterIndex := false }))
  have h4 := argNumber_rest_le (scanPrecision (scanWidth (argNumber
    { rest := skipFlags afterPercent, buf := buf, goodArgNum := true, afterIndex := false })))
  simp only at h1
  split at h
  · cases h
  · rename_i verb cs hv
    have hlen : cs.length < afterPercent.length := by
      split at hv
      · rw [hv] at h3
        simp only [List.length_cons] at h3
        omega
      · rw [hv] at h4
        simp only [List.length_cons] at h4
        omega
    have hrest : rest = cs := by
      split_ifs at h <;>
      · simp only [Prod.mk.injEq, Option.some.injEq] at h
        exact h.2.symm
    rw [hrest]
    exact hlen

/-- The result of the format loop does not depend on the fuel once the fuel
exceeds the length of the format. -/
theorem doPrintf_fuel_irrelevant (n : Nat) :
    ∀ (fuel1 fuel2 : Nat) (format buf : List Char),
      format.length ≤ n → format.length < fuel1 → format.length < fuel2 →
      doPrintf fuel1 format buf = doPrintf fuel2 format buf := by
  induction n with
  | zero =>
    intro fuel1 fuel2 format buf hn h1 h2
    have hnil : format = [] := List.length_eq_zero.mp (Nat.le_zero.mp hn)
    subst hnil
    cases fuel1 with
    | zero => exact absurd h1 (Nat.lt_irrefl _)
    | succ a =>
      cases fuel2 with
      | zero => exact absurd h2 (Nat.lt_irrefl _)
      | succ b => simp [doPrintf]
  | succ n ih =>
    intro fuel1 fuel2 format buf hn h1 h2
    cases fuel1 with
    | zero => exact absurd h1 (Nat.not_lt_zero _)
    | succ a =>
      cases fuel2 with
      | zero => exact absurd h2 (Nat.not_lt_zero _)
      | succ b =>
        unfold doPrintf
        simp only
        have hdrop : (format.dropWhile (fun c => c != '%')).length ≤ format.length :=
          (List.dropWhile_sublist _).length_le
        cases hd : format.dropWhile (fun c => c != '%') with
        | nil => rfl
        | cons x afterPercent =>
          rw [hd] at hdrop
          simp only [List.length_cons] at hdrop
          simp only
          cases hsv : scanVerb afterPercent (buf ++ format.takeWhile (fun c => c != '%')) with
          | mk out next =>
            cases next with
            | none => rfl
            | some rest =>
              have hlt := scanVerb_rest_lt _ _ _ _ hsv
              simp only
              exact ih a b rest out (by omega) (by omega) (by omega)

/-- More fuel than `Sprintf` takes does not change its result: the format loop
always reaches the end of the format. -/
theorem Sprintf_fuel_suffices (format : String) (extra : Nat) :
    String.mk (doPrintf (format.length + 1 + extra) format.toList []) = Sprintf format := by
  unfold Sprintf
  congr 1
  exact doPrintf_fuel_irrelevant format.length _ _ format.toList []
    (Nat.le_refl _) (by show format.length < _; omega) (by show format.length < _; omega)

/-- A text without `%` is a format that prints as itself. -/
theorem Sprintf_of_no_percent (text : String) (h : '%' ∉ text.toList) : Sprintf text = text := by
  unfold Sprintf doPrintf
  have hall : ∀ c ∈ text.toList, (c != '%') = true := by
    intro c hc
    simp only [bne_iff_ne, ne_eq]
    intro heq
    exact h (heq ▸ hc)
  have hdrop : text.toList.dropWhile (fun c => c != '%') = [] :=
    List.dropWhile_eq_nil_iff.mpr hall
  have htake : text.toList.takeWhile (fun c => c != '%') = text.toList :=
    List.takeWhile_eq_self_iff.mpr hall
  simp only [hdrop, htake, List.nil_append]
  rfl

/-- Sample renderings: plain text is kept; a `%` with no operand is replaced by
an error marker, `%%` by one `%`. -/
theorem Sprintf_samples :
    Sprintf "zk: node does not exist" = "zk: node does not exist" ∧
    Sprintf "100%" = "100%!(NOVERB)" ∧
    Sprintf "%d items" = "%!d(MISSING) items" ∧
    Sprintf "50%% done" = "50% done" ∧
    Sprintf "% 5.2f!" = "%!f(MISSING)!" ∧
    Sprintf "%." = "%!.(MISSING)" ∧
    Sprintf "%5." = "%!.(MISSING)" := by
  decide

theorem sameVersion_text_ne_success (t : String) : "same version " ++ t ≠ "success" := by
  intro h
  have h2 := congrArg String.data h
  simp [String.data_append] at h2

theorem panic_text_ne_success (a b : String) :
    "\npanic:" ++ a ++ ", stack:" ++ b ≠ "success" := by
  intro h
  have h2 := congrArg String.data h
  simp [String.data_append] at h2

/-- What the handler does when control reaches the swap. -/
theorem handleRouteReload_publish {ρ : Type} (env : Env ρ) (w : ResponseWriter) (s : State ρ)
    (content : String) (st : Stat) (newRoute : ρ)
    (hallow : s.AllowReload = true) (hzk : s.proxyConf.ZKServers ≠ [])
    (hfetch : env.GetRouteRaw = .returned content (some st) none)
    (hver : ∀ applied, s.ZKStat = some applied → st.Version ≠ applied.Version)
    (hparse : env.LoadFromYaml content = .loaded newRoute) :
    handleRouteReload env w s =
      { w := w ++ ["success"]
        s := { s with
          globalScheduler := some { id := s.schedulersBuilt, route := newRoute, n := s.proxyConf.N }
          schedulersBuilt := s.schedulersBuilt + 1
          Route := some newRoute
          ZKStat := some st
          spawned := s.spawned ++
            [{ delay := closeDelay s.proxyConf.ReadTimeoutMs, target := s.globalScheduler }]
          fetches := s.fetches + 1
          logged := s.logged ++
            [{ level := "info"
               format := "update with route version " ++ showInt st.Version ++ "\n"
               args := [] }] }
        err := none
        panicking := none } := by
  have hlen : s.proxyConf.ZKServers.length ≠ 0 := by
    simpa [List.length_eq_zero] using hzk
  have hsame : sameVersion s.ZKStat (some st) = .ok false := by
    unfold sameVersion
    cases hs : s.ZKStat with
    | none => rfl
    | some a => simp [hver a hs]
  simp [handleRouteReload, reloadSection, reloadBody, deferredReset, handleWebPanic,
    GetScheduler, InitGlobalManualScheduler, hallow, hlen, hfetch, hsame, hparse]

/-- The inputs behind `reachesPublish`. -/
theorem reachesPublish_inputs {ρ : Type} (env : Env ρ) (s : State ρ)
    (h : reachesPublish env s = true) :
    s.AllowReload = true ∧ s.proxyConf.ZKServers ≠ [] ∧
    ∃ content st newRoute,
      env.GetRouteRaw = .returned content (some st) none ∧
      (∀ applied, s.ZKStat = some applied → st.Version ≠ applied.Version) ∧
      env.LoadFromYaml content = .loaded newRoute := by
  unfold reachesPublish at h
  simp only [Bool.and_eq_true] at h
  obtain ⟨⟨hallow, hzk⟩, hrest⟩ := h
  refine ⟨hallow, ?_, ?_⟩
  · intro hnil
    simp [hnil] at hzk
  · cases hf : env.GetRouteRaw with
    | panicked v => simp [hf] at hrest
    | returned content stat err =>
      cases stat with
      | none => simp [hf] at hrest
      | some st =>
        cases err with
        | some e => simp [hf] at hrest
        | none =>
          simp only [hf, Bool.and_eq_true] at hrest
          obtain ⟨hv, hp⟩ := hrest
          cases hl : env.LoadFromYaml content with
          | panicked v => simp [hl] at hp
          | failed e => simp [hl] at hp
          | loaded newRoute =>
            refine ⟨content, st, newRoute, rfl, ?_, hl⟩
            intro applied happ
            simpa [happ] using hv

/-- On every path that does not reach the swap the handler leaves the routing
state alone and does not answer `success` without an error. -/
theorem handleRouteReload_no_publish {ρ : Type} (env : Env ρ) (w : ResponseWriter) (s : State ρ)
    (h : reachesPublish env s = false) :
    (handleRouteReload env w s).s.globalScheduler = s.globalScheduler ∧
    (handleRouteReload env w s).s.Route = s.Route ∧
    (handleRouteReload env w s).s.ZKStat = s.ZKStat ∧
    (handleRouteReload env w s).s.schedulersBuilt = s.schedulersBuilt ∧
    (handleRouteReload env w s).s.spawned = s.spawned ∧
    (handleRouteReload env w s).s.closed = s.closed ∧
    ¬ Successful env w s := by
  unfold Successful
  unfold reachesPublish at h
  cases hallow : s.AllowReload with
  | false => simp [handleRouteReload, hallow]
  | true =>
    by_cases hlen : s.proxyConf.ZKServers.length = 0
    · simp [handleRouteReload, reloadSection, deferredReset, hallow, hlen]
    · simp only [hallow, Bool.true_and] at h
      have hlen2 : (s.proxyConf.ZKServers.length != 0) = true := by simpa using hlen
      simp only [hlen2, Bool.true_and] at h
      cases hf : env.GetRouteRaw with
      | panicked v =>
        simp [handleRouteReload, reloadSection, reloadBody, deferredReset, handleWebPanic,
          hallow, hlen, hf, panic_text_ne_success]
      | returned content stat err =>
        cases err with
        | some e =>
          simp [handleRouteReload, reloadSection, reloadBody, deferredReset, handleWebPanic,
            hallow, hlen, hf]
        | none =>
          cases stat with
          | none =>
            cases hz : s.ZKStat <;>
            simp [handleRouteReload, reloadSection, reloadBody, deferredReset, handleWebPanic,
              sameVersion, hallow, hlen, hf, hz, panic_text_ne_success]
          | some st =>
            cases hz : s.ZKStat with
            | none =>
              cases hl : env.LoadFromYaml content <;>
              simp [hf, hz, hl] at h <;>
              simp [handleRouteReload, reloadSection, reloadBody, deferredReset, handleWebPanic,
                sameVersion, hallow, hlen, hf, hz, hl, panic_text_ne_success]
            | some applied =>
              by_cases hv : st.Version = applied.Version
              · have hsame : sameVersion (some applied) (some st) = .ok true := by
                  simp [sameVersion, hv]
                simp [handleRouteReload, reloadSection, reloadBody, deferredReset,
                  handleWebPanic, hallow, hlen, hf, hz, hsame, sameVersion_text_ne_success]
              · have hsame : sameVersion (some applied) (some st) = .ok false := by
                  simp [sameVersion, hv]
                cases hl : env.LoadFromYaml content <;>
                simp [hf, hz, hl, hv] at h <;>
                simp [handleRouteReload, reloadSection, reloadBody, deferredReset,
                  handleWebPanic, hallow, hlen, hf, hz, hl, hsame, panic_text_ne_success]

/-- A call is successful exactly when control reaches the swap. -/
theorem successful_iff_reachesPublish {ρ : Type} (env : Env ρ) (w : ResponseWriter)
    (s : State ρ) : Successful env w s ↔ reachesPublish env s = true := by
  constructor
  · intro h
    cases hr : reachesPublish env s with
    | true => rfl
    | false => exact absurd h (handleRouteReload_no_publish env w s hr).2.2.2.2.2.2
  · intro h
    obtain ⟨hallow, hzk, content, st, newRoute, hfetch, hver, hparse⟩ :=
      reachesPublish_inputs env s h
    unfold Successful
    rw [handleRouteReload_publish env w s content st newRoute hallow hzk hfetch hver hparse]
    exact ⟨rfl, rfl⟩

theorem deferredReset_allow {ρ : Type} (f : Frame ρ) : (deferredReset f).s.AllowReload = true := by
  unfold deferredReset
  split <;> rfl

theorem deferredReset_panicking {ρ : Type} (f : Frame ρ) :
    (deferredReset f).panicking = f.panicking := by
  unfold deferredReset
  split <;> rfl

theorem deferredReset_closed {ρ : Type} (f : Frame ρ) :
    (deferredReset f).s.closed = f.s.closed := by
  unfold deferredReset
  split <;> rfl

theorem handleWebPanic_panicking {ρ : Type} (env : Env ρ) (f : Frame ρ) :
    (handleWebPanic env f).panicking = none := by
  unfold handleWebPanic
  split
  · assumption
  · rfl

theorem handleWebPanic_closed {ρ : Type} (env : Env ρ) (f : Frame ρ) :
    (handleWebPanic env f).s.closed = f.s.closed := by
  unfold handleWebPanic
  split <;> rfl

theorem reloadBody_closed {ρ : Type} (env : Env ρ) (w : ResponseWriter) (s : State ρ) :
    (reloadBody env w s).s.closed = s.closed := by
  unfold reloadBody
  simp only
  split
  · rfl
  · rfl
  · split
    · rfl
    · rfl
    · rfl
    · split <;> rfl

/-- `Close()` puts the scheduler among the closed ones and no other. -/
theorem Scheduler.Close_closed {ρ : Type} (sch : Scheduler ρ) (s : State ρ) :
    sch.id ∈ (sch.Close s).closed ∧
    ∀ i, i ≠ sch.id → (i ∈ (sch.Close s).closed ↔ i ∈ s.closed) := by
  unfold Scheduler.Close
  split
  · rename_i h
    exact ⟨h, fun _ _ => Iff.rfl⟩
  · refine ⟨List.mem_cons_self _ _, ?_⟩
    intro i hi
    simp [hi]

/-- The wrap-around is the identity on the 64-bit range. -/
theorem wrapInt64_of_inRange (x : Int) (hlo : -9223372036854775808 ≤ x)
    (hhi : x < 9223372036854775808) : wrapInt64 x = x := by
  unfold wrapInt64
  omega

/-- The allocation invariant is kept by the handler. -/
theorem handleRouteReload_allocated {ρ : Type} (env : Env ρ) (w : ResponseWriter) (s : State ρ)
    (hs : SchedulerAllocated s) : SchedulerAllocated (handleRouteReload env w s).s := by
  cases hr : reachesPublish env s with
  | false =>
    obtain ⟨hg, -, -, hb, -⟩ := handleRouteReload_no_publish env w s hr
    intro sch hsch
    rw [hb]
    exact hs sch (hg ▸ hsch)
  | true =>
    obtain ⟨hallow, hzk, content, st, newRoute, hfetch, hver, hparse⟩ :=
      reachesPublish_inputs env s hr
    rw [handleRouteReload_publish env w s content st newRoute hallow hzk hfetch hver hparse]
    intro sch hsch
    simp only [Option.some.injEq] at hsch
    subst hsch
    exact Nat.lt_succ_self _

/-- One handler running alone through its three steps does what
`handleRouteReload` does. -/
theorem solo_run_eq_handleRouteReload {ρ : Type} (env other : Env ρ) (s : State ρ) :
    (Pair.run env other s [.first, .first, .first]).first.pc = .done ∧
    (Pair.run env other s [.first, .first, .first]).first.w = (handleRouteReload env [] s).w ∧
    (Pair.run env other s [.first, .first, .first]).s = (handleRouteReload env [] s).s := by
  cases hallow : s.AllowReload <;>
  simp [Pair.run, Pair.step, Handler.step, handleRouteReload, hallow]

/-- Every invocation returns normally and writes exactly one payload to the
response: one of the four status texts, the error text formatted by `Sprintf`
when the handler ends with an error, or the report of a recovered panic. -/
theorem handleRouteReload_response {ρ : Type} (env : Env ρ) (w : ResponseWriter) (s : State ρ) :
    (handleRouteReload env w s).panicking = none ∧
    ∃ body, (handleRouteReload env w s).w = w ++ [body] ∧
      (body = "reloading" ∨ body = "not using zookeeper" ∨
        (∃ v : Int, body = "same version " ++ showInt v) ∨ body = "success" ∨
        (∃ e, (handleRouteReload env w s).err = some e ∧ body = Sprintf e) ∨
        (∃ r, body = "\npanic:" ++ env.showPanic r ++ ", stack:" ++ env.GetStack)) := by
  unfold handleRouteReload reloadSection reloadBody deferredReset handleWebPanic
  simp only
  repeat' split
  all_goals simp_all
  all_goals first
    | exact ⟨_, rfl⟩
    | exact Or.inl ⟨_, rfl⟩
    | exact Or.inr ⟨_, rfl⟩
    | exact Or.inr (Or.inr (Or.inl ⟨_, rfl⟩))
    | exact Or.inr (Or.inr (Or.inr (Or.inr ⟨_, rfl⟩)))

/-- The deferred error writer writes nothing when the handler ends without an
error, and the error text formatted by `Sprintf` when it ends with one. -/
theorem deferredReset_writes {ρ : Type} (f : Frame ρ) :
    (f.err = none → (deferredReset f).w = f.w) ∧
    (∀ e, f.err = some e → (deferredReset f).w = f.w ++ [Sprintf e]) := by
  unfold deferredReset
  constructor
  · intro h
    simp [h]
  · intro e h
    simp [h]

/-- On the publish path `ZKClient.Stat` becomes the fetched stat. -/
theorem publish_path_stat {ρ : Type} (env : Env ρ) (w : ResponseWriter) (s : State ρ)
    (content : String) (st : Stat) (newRoute : ρ)
    (hallow : s.AllowReload = true) (hzk : s.proxyConf.ZKServers ≠ [])
    (hfetch : env.GetRouteRaw = .returned content (some st) none)
    (hver : ∀ applied, s.ZKStat = some applied → st.Version ≠ applied.Version)
    (hparse : env.LoadFromYaml content = .loaded newRoute) :
    (handleRouteReload env w s).s.ZKStat = some st := by
  rw [handleRouteReload_publish env w s content st newRoute hallow hzk hfetch hver hparse]

/-! ## The reload coordinator -/

/-- Counterexample to C1 as stated: with route version 5 applied, a fetched route of the
lower version 3 (reload allowed, ZooKeeper configured, fetch and parse
successful) is not a no-op. A scheduler is constructed and installed, and the
active scheduler, `config.Route` and `ZKClient.Stat` all change. -/
theorem lower_version_is_applied :
    sampleState.AllowReload = true ∧
    sampleState.proxyConf.ZKServers ≠ [] ∧
    sampleState.ZKStat = some { Version := 5 } ∧
    (sampleEnv "route-v3" 3).GetRouteRaw = .returned "route-v3" (some { Version := 3 }) none ∧
    (3 : Int) ≤ 5 ∧
    (handleRouteReload (sampleEnv "route-v3" 3) [] sampleState).w = ["success"] ∧
    (handleRouteReload (sampleEnv "route-v3" 3) [] sampleState).s.schedulersBuilt =
      sampleState.schedulersBuilt + 1 ∧
    (handleRouteReload (sampleEnv "route-v3" 3) [] sampleState).s.globalScheduler ≠
      sampleState.globalScheduler ∧
    (handleRouteReload (sampleEnv "route-v3" 3) [] sampleState).s.Route ≠ sampleState.Route ∧
    (handleRouteReload (sampleEnv "route-v3" 3) [] sampleState).s.ZKStat ≠ sampleState.ZKStat := by
  decide

/-- C1, amended: when a route version has been applied and the fetched route has
that same version (reload allowed, ZooKeeper configured, fetch successful), the
handler answers `same version <v>` and is a no-op: no scheduler is constructed
or installed, no close is scheduled, and the active scheduler, `config.Route`
and `ZKClient.Stat` are the same after the call as before. -/
theorem same_version_is_noop {ρ : Type} (env : Env ρ) (w : ResponseWriter) (s : State ρ)
    (content : String) (st applied : Stat)
    (hallow : s.AllowReload = true) (hzk : s.proxyConf.ZKServers ≠ [])
    (hfetch : env.GetRouteRaw = .returned content (some st) none)
    (happlied : s.ZKStat = some applied) (hver : st.Version = applied.Version) :
    (handleRouteReload env w s).w = w ++ ["same version " ++ showInt st.Version] ∧
    (handleRouteReload env w s).s.schedulersBuilt = s.schedulersBuilt ∧
    (handleRouteReload env w s).s.globalScheduler = s.globalScheduler ∧
    (handleRouteReload env w s).s.Route = s.Route ∧
    (handleRouteReload env w s).s.ZKStat = s.ZKStat ∧
    (handleRouteReload env w s).s.spawned = s.spawned := by
  have hlen : s.proxyConf.ZKServers.length ≠ 0 := by
    simpa [List.length_eq_zero] using hzk
  have hsame : sameVersion (some applied) (some st) = .ok true := by
    simp [sameVersion, hver]
  simp [handleRouteReload, reloadSection, reloadBody, deferredReset, handleWebPanic,
    hallow, hlen, hfetch, happlied, hsame]

/-- Instance: route version 5 applied, version 5 fetched. -/
theorem same_version_is_noop_witness :
    (handleRouteReload (sampleEnv "route-v5" 5) [] sampleState).w =
      [] ++ ["same version " ++ showInt 5] ∧
    (handleRouteReload (sampleEnv "route-v5" 5) [] sampleState).s.schedulersBuilt =
      sampleState.schedulersBuilt ∧
    (handleRouteReload (sampleEnv "route-v5" 5) [] sampleState).s.globalScheduler =
      sampleState.globalScheduler ∧
    (handleRouteReload (sampleEnv "route-v5" 5) [] sampleState).s.Route = sampleState.Route ∧
    (handleRouteReload (sampleEnv "route-v5" 5) [] sampleState).s.ZKStat = sampleState.ZKStat ∧
    (handleRouteReload (sampleEnv "route-v5" 5) [] sampleState).s.spawned =
      sampleState.spawned :=
  same_version_is_noop (sampleEnv "route-v5" 5) [] sampleState "route-v5"
    { Version := 5 } { Version := 5 } (by decide) (by decide) rfl rfl (by decide)

/-- C2: while a reload is in progress (`dbcfg.AllowReload` false) the handler
writes the single response `reloading` and changes nothing: the globals are the
same after the call as before (so the active scheduler, `config.Route` and
`ZKClient.Stat` are unchanged and `AllowReload` stays false), no route is fetched
and no close is scheduled. -/
theorem busy_is_rejected {ρ : Type} (env : Env ρ) (w : ResponseWriter) (s : State ρ)
    (hbusy : s.AllowReload = false) :
    (handleRouteReload env w s).w = w ++ ["reloading"] ∧
    (handleRouteReload env w s).s = s ∧
    (handleRouteReload env w s).s.globalScheduler = s.globalScheduler ∧
    (handleRouteReload env w s).s.Route = s.Route ∧
    (handleRouteReload env w s).s.ZKStat = s.ZKStat ∧
    (handleRouteReload env w s).s.AllowReload = false ∧
    (handleRouteReload env w s).s.fetches = s.fetches ∧
    (handleRouteReload env w s).s.spawned = s.spawned := by
  simp [handleRouteReload, hbusy]

/-- Instance: the sample proxy with a reload in progress. -/
theorem busy_is_rejected_witness :
    (handleRouteReload (sampleEnv "route-v6" 6) []
        { sampleState with AllowReload := false }).w = [] ++ ["reloading"] ∧
    (handleRouteReload (sampleEnv "route-v6" 6) []
        { sampleState with AllowReload := false }).s.AllowReload = false ∧
    (handleRouteReload (sampleEnv "route-v6" 6) []
        { sampleState with AllowReload := false }).s.fetches = 0 :=
  ⟨(busy_is_rejected (sampleEnv "route-v6" 6) []
      { sampleState with AllowReload := false } rfl).1,
   (busy_is_rejected (sampleEnv "route-v6" 6) []
      { sampleState with AllowReload := false } rfl).2.2.2.2.2.1,
   (busy_is_rejected (sampleEnv "route-v6" 6) []
      { sampleState with AllowReload := false } rfl).2.2.2.2.2.2.1⟩

/-- C3: when `GetRouteRaw` returns an error, or `LoadFromYaml` returns an error
on the fetched content, nothing is applied: the active scheduler, `config.Route`
and `ZKClient.Stat` are the same after the call as before,
`InitGlobalManualScheduler` is not called (no scheduler is built) and no close of
the old scheduler is scheduled. -/
theorem fetch_or_parse_error_applies_nothing {ρ : Type} (env : Env ρ) (w : ResponseWriter)
    (s : State ρ)
    (herr : (∃ content stat e, env.GetRouteRaw = .returned content stat (some e)) ∨
      (∃ content stat e, env.GetRouteRaw = .returned content stat none ∧
        env.LoadFromYaml content = .failed e)) :
    (handleRouteReload env w s).s.globalScheduler = s.globalScheduler ∧
    (handleRouteReload env w s).s.Route = s.Route ∧
    (handleRouteReload env w s).s.ZKStat = s.ZKStat ∧
    (handleRouteReload env w s).s.schedulersBuilt = s.schedulersBuilt ∧
    (handleRouteReload env w s).s.spawned = s.spawned := by
  have hr : reachesPublish env s = false := by
    cases hp : reachesPublish env s with
    | false => rfl
    | true =>
      obtain ⟨-, -, content, st, newRoute, hfetch, -, hparse⟩ := reachesPublish_inputs env s hp
      rcases herr with ⟨c, stat, e, hf⟩ | ⟨c, stat, e, hf, hl⟩
      · rw [hfetch] at hf
        cases hf
      · rw [hfetch] at hf
        cases hf
        rw [hparse] at hl
        cases hl
  obtain ⟨h1, h2, h3, h4, h5, -⟩ := handleRouteReload_no_publish env w s hr
  exact ⟨h1, h2, h3, h4, h5⟩

/-- Instance: the fetched content is rejected by the parser. -/
theorem fetch_or_parse_error_applies_nothing_witness :
    (handleRouteReload (sampleEnv "bad" 6) [] sampleState).s.globalScheduler =
      sampleState.globalScheduler ∧
    (handleRouteReload (sampleEnv "bad" 6) [] sampleState).s.Route = sampleState.Route ∧
    (handleRouteReload (sampleEnv "bad" 6) [] sampleState).s.ZKStat = sampleState.ZKStat ∧
    (handleRouteReload (sampleEnv "bad" 6) [] sampleState).s.schedulersBuilt =
      sampleState.schedulersBuilt ∧
    (handleRouteReload (sampleEnv "bad" 6) [] sampleState).s.spawned = sampleState.spawned :=
  fetch_or_parse_error_applies_nothing (sampleEnv "bad" 6) [] sampleState
    (Or.inr ⟨"bad", some { Version := 6 }, "yaml: line 1: did not find expected key",
      rfl, by decide⟩)

/-- C4: with reload allowed, ZooKeeper configured, a successful fetch, a fetched
version different from the applied one (or no applied version yet) and a
successful parse, the handler publishes the candidate as a whole: the active
scheduler is the one built by `InitGlobalManualScheduler` from the new route
table and `proxyConf.N`, `config.Route` is that route table, `ZKClient.Stat` is
the fetched stat (the applied version is the fetched version), and the response
is `success`. -/
theorem publish_installs_candidate {ρ : Type} (env : Env ρ) (w : ResponseWriter) (s : State ρ)
    (content : String) (st : Stat) (newRoute : ρ)
    (hallow : s.AllowReload = true) (hzk : s.proxyConf.ZKServers ≠ [])
    (hfetch : env.GetRouteRaw = .returned content (some st) none)
    (hver : ∀ applied, s.ZKStat = some applied → st.Version ≠ applied.Version)
    (hparse : env.LoadFromYaml content = .loaded newRoute) :
    (handleRouteReload env w s).s.globalScheduler =
      (InitGlobalManualScheduler newRoute s.proxyConf.N s).globalScheduler ∧
    (handleRouteReload env w s).s.globalScheduler =
      some { id := s.schedulersBuilt, route := newRoute, n := s.proxyConf.N } ∧
    (handleRouteReload env w s).s.Route = some newRoute ∧
    (handleRouteReload env w s).s.ZKStat = some st ∧
    appliedVersion (handleRouteReload env w s).s = some st.Version ∧
    (handleRouteReload env w s).w = w ++ ["success"] ∧
    (handleRouteReload env w s).err = none ∧
    (handleRouteReload env w s).panicking = none := by
  rw [handleRouteReload_publish env w s content st newRoute hallow hzk hfetch hver hparse]
  simp [InitGlobalManualScheduler, appliedVersion]

/-- Instance: route version 5 applied, version 6 fetched and parsed. -/
theorem publish_installs_candidate_witness :
    (handleRouteReload (sampleEnv "route-v6" 6) [] sampleState).s.globalScheduler =
      some { id := 1, route := "route-v6", n := 3 } ∧
    (handleRouteReload (sampleEnv "route-v6" 6) [] sampleState).s.Route = some "route-v6" ∧
    (handleRouteReload (sampleEnv "route-v6" 6) [] sampleState).s.ZKStat =
      some { Version := 6 } ∧
    (handleRouteReload (sampleEnv "route-v6" 6) [] sampleState).w = [] ++ ["success"] :=
  have h := publish_installs_candidate (sampleEnv "route-v6" 6) [] sampleState "route-v6"
    { Version := 6 } "route-v6" (by decide) (by decide) rfl
    (by intro applied happ; cases happ; decide) (by decide)
  ⟨h.2.1, h.2.2.1, h.2.2.2.1, h.2.2.2.2.2.1⟩

/-- Counterexample to C5 as stated: from applied version 5, a reload to version 7 and then a
reload to version 3 both succeed (each answers `success`), and the applied
version after the second call, 3, is not greater than the applied version after
the first, 7. -/
theorem second_reload_can_lower_version :
    Successful (sampleEnv "route-v7" 7) [] sampleState ∧
    Successful (sampleEnv "route-v3" 3) []
      (handleRouteReload (sampleEnv "route-v7" 7) [] sampleState).s ∧
    appliedVersion (handleRouteReload (sampleEnv "route-v7" 7) [] sampleState).s = some 7 ∧
    appliedVersion (handleRouteReload (sampleEnv "route-v3" 3) []
      (handleRouteReload (sampleEnv "route-v7" 7) [] sampleState).s).s = some 3 ∧
    ¬ ((7 : Int) < 3) := by
  decide

/-- C5, amended: after two consecutive successful calls (each returns without
error and answers `success`) the applied version after the second call is
different from the applied version after the first call. -/
theorem consecutive_reloads_change_version {ρ : Type} (env1 env2 : Env ρ)
    (w1 w2 : ResponseWriter) (s : State ρ)
    (h1 : Successful env1 w1 s)
    (h2 : Successful env2 w2 (handleRouteReload env1 w1 s).s) :
    ∃ v1 v2,
      appliedVersion (handleRouteReload env1 w1 s).s = some v1 ∧
      appliedVersion (handleRouteReload env2 w2 (handleRouteReload env1 w1 s).s).s = some v2 ∧
      v2 ≠ v1 := by
  obtain ⟨hallow1, hzk1, c1, st1, r1, hf1, hv1, hp1⟩ :=
    reachesPublish_inputs env1 s ((successful_iff_reachesPublish env1 w1 s).1 h1)
  obtain ⟨hallow2, hzk2, c2, st2, r2, hf2, hv2, hp2⟩ :=
    reachesPublish_inputs env2 _ ((successful_iff_reachesPublish env2 w2 _).1 h2)
  have e1 := (publish_path_stat env1 w1 s c1 st1 r1 hallow1 hzk1 hf1 hv1 hp1)
  have e2 := (publish_path_stat env2 w2 _ c2 st2 r2 hallow2 hzk2 hf2 hv2 hp2)
  refine ⟨st1.Version, st2.Version, ?_, ?_, hv2 st1 e1⟩
  · simp [appliedVersion, e1]
  · simp [appliedVersion, e2]

/-- Instance: reloads to version 7 and then to version 3. -/
theorem consecutive_reloads_change_version_witness :
    Successful (sampleEnv "route-v7" 7) [] sampleState ∧
    Successful (sampleEnv "route-v3" 3) []
      (handleRouteReload (sampleEnv "route-v7" 7) [] sampleState).s ∧
    ∃ v1 v2,
      appliedVersion (handleRouteReload (sampleEnv "route-v7" 7) [] sampleState).s = some v1 ∧
      appliedVersion (handleRouteReload (sampleEnv "route-v3" 3) []
        (handleRouteReload (sampleEnv "route-v7" 7) [] sampleState).s).s = some v2 ∧
      v2 ≠ v1 :=
  ⟨by decide, by decide,
   consecutive_reloads_change_version (sampleEnv "route-v7" 7) (sampleEnv "route-v3" 3) [] []
     sampleState (by decide) (by decide)⟩

/-- C6: a successful call schedules exactly one close task; its target is the
scheduler that was active before the swap, which is not the newly installed
one, and its delay is the duration of line 189, equal to
`5 * ReadTimeoutMs` milliseconds whenever that product fits the 64-bit
nanosecond duration. Run in any later state, the task closes that old scheduler
and no other, so the newly installed one is left as it was (with no scheduler
active before the swap there is nothing to close, and the goroutine panics on
the nil `oldScheduler`). A call that is not successful schedules no close
task. -/
theorem close_task_scheduled_on_publish_only {ρ : Type} (env : Env ρ) (w : ResponseWriter)
    (s : State ρ) (halloc : SchedulerAllocated s) :
    (Successful env w s →
      (handleRouteReload env w s).s.spawned =
        s.spawned ++
          [{ delay := closeDelay s.proxyConf.ReadTimeoutMs, target := s.globalScheduler }] ∧
      s.globalScheduler ≠ (handleRouteReload env w s).s.globalScheduler ∧
      (-9223372036854775808 ≤ 5 * s.proxyConf.ReadTimeoutMs * Millisecond →
        5 * s.proxyConf.ReadTimeoutMs * Millisecond < 9223372036854775808 →
        closeDelay s.proxyConf.ReadTimeoutMs = 5 * s.proxyConf.ReadTimeoutMs * Millisecond) ∧
      (∀ old, s.globalScheduler = some old → ∀ later : State ρ,
        ∃ after,
          runCloseTask
            { delay := closeDelay s.proxyConf.ReadTimeoutMs, target := s.globalScheduler }
            later = some after ∧
          old.id ∈ after.closed ∧
          (∀ i, i ≠ old.id → (i ∈ after.closed ↔ i ∈ later.closed)) ∧
          (∀ installed, (handleRouteReload env w s).s.globalScheduler = some installed →
            (installed.id ∈ after.closed ↔ installed.id ∈ later.closed))) ∧
      (s.globalScheduler = none → ∀ later : State ρ,
        runCloseTask
          { delay := closeDelay s.proxyConf.ReadTimeoutMs, target := s.globalScheduler }
          later = none)) ∧
    (¬ Successful env w s → (handleRouteReload env w s).s.spawned = s.spawned) := by
  constructor
  · intro hsucc
    obtain ⟨hallow, hzk, c, st, r, hf, hv, hp⟩ :=
      reachesPublish_inputs env s ((successful_iff_reachesPublish env w s).1 hsucc)
    rw [handleRouteReload_publish env w s c st r hallow hzk hf hv hp]
    refine ⟨rfl, ?_, ?_, ?_, ?_⟩
    · intro heq
      cases hg : s.globalScheduler with
      | none => simp [hg] at heq
      | some old =>
        have hlt := halloc old hg
        simp only [hg, Option.some.injEq] at heq
        rw [heq] at hlt
        exact Nat.lt_irrefl _ hlt
    · intro hlo hhi
      unfold closeDelay wrapInt64
      unfold Millisecond at *
      omega
    · intro old hold later
      have hc := Scheduler.Close_closed old later
      refine ⟨old.Close later, ?_, hc.1, hc.2, ?_⟩
      · simp [runCloseTask, hold]
      · intro installed hinst
        simp only [Option.some.injEq] at hinst
        apply hc.2
        have hlt := halloc old hold
        intro heq
        rw [← hinst] at heq
        simp only at heq
        omega
    · intro hnone later
      simp [runCloseTask, hnone]
  · intro hfail
    have hr : reachesPublish env s = false := by
      cases hp : reachesPublish env s with
      | false => rfl
      | true => exact absurd ((successful_iff_reachesPublish env w s).2 hp) hfail
    exact (handleRouteReload_no_publish env w s hr).2.2.2.2.1

/-- Instance: a reload to version 6 schedules the close of scheduler 0, and
running that task after the reload closes scheduler 0; a reload at the applied
version 5 schedules nothing. -/
theorem close_task_scheduled_on_publish_only_witness :
    SchedulerAllocated sampleState ∧
    Successful (sampleEnv "route-v6" 6) [] sampleState ∧
    (handleRouteReload (sampleEnv "route-v6" 6) [] sampleState).s.spawned =
      sampleState.spawned ++
        [{ delay := closeDelay sampleState.proxyConf.ReadTimeoutMs,
           target := sampleState.globalScheduler }] ∧
    (∃ after,
      runCloseTask
        { delay := closeDelay sampleState.proxyConf.ReadTimeoutMs,
          target := sampleState.globalScheduler }
        (handleRouteReload (sampleEnv "route-v6" 6) [] sampleState).s = some after ∧
      0 ∈ after.closed) ∧
    ¬ Successful (sampleEnv "route-v5" 5) [] sampleState ∧
    (handleRouteReload (sampleEnv "route-v5" 5) [] sampleState).s.spawned =
      sampleState.spawned :=
  have halloc : SchedulerAllocated sampleState := by
    intro sch hsch
    cases hsch
    decide
  have hpub := (close_task_scheduled_on_publish_only (sampleEnv "route-v6" 6) [] sampleState
    halloc).1 (by decide)
  ⟨halloc, by decide, hpub.1,
   (hpub.2.2.2.1 { id := 0, route := "route-v5", n := 3 } rfl
      (handleRouteReload (sampleEnv "route-v6" 6) [] sampleState).s).imp
     (fun _ h => ⟨h.1, h.2.1⟩),
   by decide,
   (close_task_scheduled_on_publish_only (sampleEnv "route-v5" 5) [] sampleState halloc).2
      (by decide)⟩

/-- C7: a call that starts with reload allowed returns with `dbcfg.AllowReload`
true on every path (success, ZooKeeper not configured, fetch error, same version,
parse error, and a panic, which `handleWebPanic` recovers so that the handler
returns normally); at that point no `Close()` has run on its behalf: the set of
closed schedulers is the one the call started with. -/
theorem reload_flag_restored {ρ : Type} (env : Env ρ) (w : ResponseWriter) (s : State ρ)
    (hallow : s.AllowReload = true) :
    (handleRouteReload env w s).s.AllowReload = true ∧
    (handleRouteReload env w s).panicking = none ∧
    (handleRouteReload env w s).s.closed = s.closed := by
  unfold handleRouteReload reloadSection
  simp only [hallow, Bool.not_true, Bool.false_eq_true, if_false]
  split
  · exact ⟨deferredReset_allow _, by rw [deferredReset_panicking], by rw [deferredReset_closed]⟩
  · refine ⟨deferredReset_allow _, ?_, ?_⟩
    · rw [deferredReset_panicking, handleWebPanic_panicking]
    · rw [deferredReset_closed, handleWebPanic_closed, reloadBody_closed]

/-- Instance: a reload to version 6 on the sample proxy. -/
theorem reload_flag_restored_witness :
    sampleState.AllowReload = true ∧
    (handleRouteReload (sampleEnv "route-v6" 6) [] sampleState).s.AllowReload = true ∧
    (handleRouteReload (sampleEnv "route-v6" 6) [] sampleState).panicking = none ∧
    (handleRouteReload (sampleEnv "route-v6" 6) [] sampleState).s.closed = sampleState.closed :=
  ⟨rfl, reload_flag_restored (sampleEnv "route-v6" 6) [] sampleState rfl⟩

/-- C9: with reload allowed and an empty `proxyConf.ZKServers` list the handler
writes `not using zookeeper`, does not fetch a route, and leaves the active
scheduler, `config.Route` and `ZKClient.Stat` unchanged (the globals are the same
after the call as before). -/
theorem no_zookeeper_is_noop {ρ : Type} (env : Env ρ) (w : ResponseWriter) (s : State ρ)
    (hallow : s.AllowReload = true) (hzk : s.proxyConf.ZKServers = []) :
    (handleRouteReload env w s).w = w ++ ["not using zookeeper"] ∧
    (handleRouteReload env w s).s.fetches = s.fetches ∧
    (handleRouteReload env w s).s.globalScheduler = s.globalScheduler ∧
    (handleRouteReload env w s).s.Route = s.Route ∧
    (handleRouteReload env w s).s.ZKStat = s.ZKStat ∧
    (handleRouteReload env w s).s = s := by
  have hs : { s with AllowReload := true } = s := by
    cases s
    simp_all
  simp [handleRouteReload, reloadSection, deferredReset, hallow, hzk, hs]

/-- Instance: the sample proxy with no ZooKeeper server configured. -/
theorem no_zookeeper_is_noop_witness :
    (handleRouteReload (sampleEnv "route-v6" 6) []
        { sampleState with proxyConf := { sampleConf with ZKServers := [] } }).w =
      [] ++ ["not using zookeeper"] ∧
    (handleRouteReload (sampleEnv "route-v6" 6) []
        { sampleState with proxyConf := { sampleConf with ZKServers := [] } }).s.fetches = 0 :=
  ⟨(no_zookeeper_is_noop (sampleEnv "route-v6" 6) []
      { sampleState with proxyConf := { sampleConf with ZKServers := [] } } rfl rfl).1,
   (no_zookeeper_is_noop (sampleEnv "route-v6" 6) []
      { sampleState with proxyConf := { sampleConf with ZKServers := [] } } rfl rfl).2.1⟩

/-- C8 fails on the code: the check of `dbcfg.AllowReload` (line 144) and its set
to false (line 149) are two steps. When two invocations both run the check
before either runs the set, both pass it: both are in the reloading section at
the same time and neither is answered `reloading`; run to the end, both reload
and both answer `success`. -/
theorem concurrent_reloads_both_enter :
    sampleState.AllowReload = true ∧
    (Pair.run (sampleEnv "route-v6" 6) (sampleEnv "route-v7" 7) sampleState
      [.first, .second, .first, .second]).first.inSection = true ∧
    (Pair.run (sampleEnv "route-v6" 6) (sampleEnv "route-v7" 7) sampleState
      [.first, .second, .first, .second]).second.inSection = true ∧
    (Pair.run (sampleEnv "route-v6" 6) (sampleEnv "route-v7" 7) sampleState
      [.first, .second, .first, .second]).first.w = [] ∧
    (Pair.run (sampleEnv "route-v6" 6) (sampleEnv "route-v7" 7) sampleState
      [.first, .second, .first, .second]).second.w = [] ∧
    (Pair.run (sampleEnv "route-v6" 6) (sampleEnv "route-v7" 7) sampleState
      [.first, .second, .first, .second, .first, .second]).first.w = ["success"] ∧
    (Pair.run (sampleEnv "route-v6" 6) (sampleEnv "route-v7" 7) sampleState
      [.first, .second, .first, .second, .first, .second]).second.w = ["success"] := by
  decide

/-- C10 fails on the code: the deferred error writer passes the error text to
`fmt.Sprintf` as the format string. For a parse error whose text holds a `%`
the handler does not panic and writes one payload, but that payload is not the
text of the error: the `%` and the character after it are replaced by a
`%!verb(MISSING)` marker. -/
theorem error_text_is_mangled :
    (handleRouteReload percentEnv [] sampleState).panicking = none ∧
    (handleRouteReload percentEnv [] sampleState).err =
      some "yaml: unmarshal errors:\n  line 2: cannot unmarshal !!str `50%` into int" ∧
    (handleRouteReload percentEnv [] sampleState).w =
      ["yaml: unmarshal errors:\n  line 2: cannot unmarshal !!str `50%!`(MISSING) into int"] ∧
    (handleRouteReload percentEnv [] sampleState).w ≠
      ["yaml: unmarshal errors:\n  line 2: cannot unmarshal !!str `50%` into int"] := by
  decide

end Gobeansproxy
